import Mathlib

/-!
Shallow embedding of the pipe-soil interaction (PSI) undrained backend
(`psi_backend.py`, class `PSI_Undrained_Backend`) and of the stability banner
of the dashboard (`psi_app.py`), together with theorems settling the spec
claims.  Python floats are modelled as real numbers; `self.ocr ** prem`,
`x ** 0.25` and friends are real `rpow`; `math.asin`, `math.acos`,
`math.sqrt` are `Real.arcsin`, `Real.arccos`, `Real.sqrt`.  Python's
`round(x, 2)` is modelled as `round (x * 100) / 100`; Python rounds exact
half-way ties to even while Mathlib's `round` rounds them up, but no claim
below touches a tie, so the two agree everywhere they are used.
-/

namespace PSI

/-- One surface's coefficient table: the dict `{'SSR': [...], 'Prem': [...]}`
with its three ordered P5/P50/P95 entries, represented as functions on
`Fin 3` (index 0 = P5, 1 = P50, 2 = P95). -/
structure SurfaceCoeffs where
  SSR : Fin 3 → ℝ
  Prem : Fin 3 → ℝ

/-- The state built by `PSI_Undrained_Backend.__init__`: the raw inputs.
`sub_wt` is derived below, exactly as `__init__` stores `sub_wt_raw - 10.05`. -/
structure Backend where
  dop : ℝ
  tp : ℝ
  z : ℝ
  su : ℝ
  ocr : ℝ
  st : ℝ
  alpha : ℝ
  rate : ℝ
  sub_wt_raw : ℝ
  su_b14 : ℝ
  coeffs_conc : SurfaceCoeffs
  coeffs_pet : SurfaceCoeffs

/-- Constant `self.g = 9.8`. -/
noncomputable def g : ℝ := 9.8

/-- Constant `self.klay = 2`. -/
noncomputable def klay : ℝ := 2

/-- `self.sub_wt = sub_wt_raw - 10.05` (set in `__init__`). -/
noncomputable def Backend.sub_wt (b : Backend) : ℝ := b.sub_wt_raw - 10.05

/-- `dip = self.dop - 2 * self.tp`. -/
noncomputable def Backend.dip (b : Backend) : ℝ := b.dop - 2 * b.tp

/-- `wp = (pi * (dop**2 - dip**2) * 7850) / 4`. -/
noncomputable def Backend.wp (b : Backend) : ℝ :=
  (Real.pi * (b.dop ^ 2 - b.dip ^ 2) * 7850) / 4

/-- `wcon = (pi * (dip**2) * 1000) / 4`. -/
noncomputable def Backend.wcon (b : Backend) : ℝ := (Real.pi * b.dip ^ 2 * 1000) / 4

/-- `wb = (pi * (dop**2) * 1025) / 4`. -/
noncomputable def Backend.wb (b : Backend) : ℝ := (Real.pi * b.dop ^ 2 * 1025) / 4

/-- `wpf = ((wp + wcon - wb) * g) / 1000`. -/
noncomputable def Backend.wpf (b : Backend) : ℝ := ((b.wp + b.wcon - b.wb) * g) / 1000

/-- `wpins = (pi * (dop**2 - dip**2) * (7850 - 1025)) / 4`. -/
noncomputable def Backend.wpins (b : Backend) : ℝ :=
  (Real.pi * (b.dop ^ 2 - b.dip ^ 2) * (7850 - 1025)) / 4

/-- `v = max(wpins * klay * g / 1000, wpf)`. -/
noncomputable def Backend.v (b : Backend) : ℝ := max (b.wpins * klay * g / 1000) b.wpf

/-- `b_width = 2 * math.sqrt(dop * z - z**2)` (first branch of the `abm`
computation). -/
noncomputable def Backend.b_width (b : Backend) : ℝ :=
  2 * Real.sqrt (b.dop * b.z - b.z ^ 2)

/-- `asin_val = math.asin(b_width / dop)` — note: the source passes the
quotient to `asin` with NO clamp (only the later `acos` argument is clamped). -/
noncomputable def Backend.asin_val (b : Backend) : ℝ := Real.arcsin (b.b_width / b.dop)

/-- The penetration contact area `abm`, piecewise on `z < dop / 2`. -/
noncomputable def Backend.abm (b : Backend) : ℝ :=
  if b.z < b.dop / 2 then
    b.asin_val * (b.dop ^ 2 / 4) - b.b_width * (b.dop / 4) * Real.cos b.asin_val
  else
    Real.pi * b.dop ^ 2 / 8 + b.dop * (b.z - b.dop / 2)

/-- `term_bearing = min(6 * (z/dop)**0.25, 3.4 * (10*z/dop)**0.5)`. -/
noncomputable def Backend.term_bearing (b : Backend) : ℝ :=
  min (6 * (b.z / b.dop) ^ (0.25 : ℝ)) (3.4 * (10 * b.z / b.dop) ^ (0.5 : ℝ))

/-- `term_buoyancy = 1.5 * sub_wt * abm / (dop * su)`. -/
noncomputable def Backend.term_buoyancy (b : Backend) : ℝ :=
  1.5 * b.sub_wt * b.abm / (b.dop * b.su)

/-- `qv = (term_bearing + term_buoyancy) * dop * su`. -/
noncomputable def Backend.qv (b : Backend) : ℝ :=
  (b.term_bearing + b.term_buoyancy) * b.dop * b.su

/-- `cos_val = max(-1, min(1, 1 - z / (dop / 2)))` — the `acos` argument,
with the source's safety clamp applied. -/
noncomputable def Backend.cos_val (b : Backend) : ℝ :=
  max (-1) (min 1 (1 - b.z / (b.dop / 2)))

/-- `beta = math.acos(cos_val)`. -/
noncomputable def Backend.beta (b : Backend) : ℝ := Real.arccos b.cos_val

/-- `zeta = 1.0 if beta == 0 else 2*sin(beta) / (beta + sin(beta)*cos(beta))`. -/
noncomputable def Backend.zeta (b : Backend) : ℝ :=
  if b.beta = 0 then 1
  else 2 * Real.sin b.beta / (b.beta + Real.sin b.beta * Real.cos b.beta)

/-- `fl_remain = z * rate * (2 * su_b14 + 0.5 * sub_wt * z)`. -/
noncomputable def Backend.fl_remain (b : Backend) : ℝ :=
  b.z * b.rate * (2 * b.su_b14 + 0.5 * b.sub_wt * b.z)

/-- The dict returned by `calculate_intermediates`. -/
structure Intermediates where
  Wp : ℝ
  Wpf : ℝ
  V : ℝ
  Abm : ℝ
  Qv : ℝ
  zeta : ℝ
  Fl_remain : ℝ

/-- `PSI_Undrained_Backend.calculate_intermediates` as a total
real-arithmetic function: this is the source's arithmetic on its in-domain
inputs.  The source performs no input validation, but it can still raise
generic arithmetic exceptions mid-computation on some out-of-domain inputs
(`math.sqrt`/`math.asin` domain errors, zero divisions, complex powers);
those error paths are modelled explicitly by
`calculate_intermediates_checked` below. -/
noncomputable def Backend.calculate_intermediates (b : Backend) : Intermediates :=
  ⟨b.wp, b.wpf, b.v, b.abm, b.qv, b.zeta, b.fl_remain⟩

/-- Python's `round(x, 2)` from `generate_tables` (see the header note on
tie-breaking, which no claim touches). -/
noncomputable def round2 (x : ℝ) : ℝ := (round (x * 100) : ℤ) / 100

/-- Loop body of `generate_tables`:
`abrk = alpha * ssr * (ocr ** prem) * zeta * rate * v`. -/
noncomputable def Backend.abrk (b : Backend) (c : SurfaceCoeffs) (zeta v : ℝ)
    (i : Fin 3) : ℝ :=
  b.alpha * c.SSR i * b.ocr ^ c.Prem i * zeta * b.rate * v

/-- `ares = (1 / st) * abrk`. -/
noncomputable def Backend.ares (b : Backend) (c : SurfaceCoeffs) (zeta v : ℝ)
    (i : Fin 3) : ℝ :=
  1 / b.st * b.abrk c zeta v i

/-- `lbrk = (alpha * ssr * (ocr ** prem) * rate * v) + fl_remain`. -/
noncomputable def Backend.lbrk (b : Backend) (c : SurfaceCoeffs) (v fl : ℝ)
    (i : Fin 3) : ℝ :=
  b.alpha * c.SSR i * b.ocr ^ c.Prem i * b.rate * v + fl

/-- `base_lres = (0.32 + 0.8 * (z / dop)**0.8) * v`. -/
noncomputable def Backend.base_lres (b : Backend) (v : ℝ) : ℝ :=
  (0.32 + 0.8 * (b.z / b.dop) ^ (0.8 : ℝ)) * v

/-- The lateral residual: `base_lres / 1.5` at index 0 (P5),
`base_lres * 1.5` at index 2 (P95), `base_lres` at index 1 (P50). -/
noncomputable def Backend.lres (b : Backend) (v : ℝ) (i : Fin 3) : ℝ :=
  if i = 0 then b.base_lres v / 1.5
  else if i = 2 then b.base_lres v * 1.5
  else b.base_lres v

/-- Axial break displacement `xb` (mm), piecewise on the estimate index. -/
noncomputable def Backend.xb (b : Backend) (i : Fin 3) : ℝ :=
  if i = 0 then min 1.25 (0.0025 * (b.dop * 1000))
  else if i = 1 then min 5 (0.01 * (b.dop * 1000))
  else max 50 (0.01 * (b.dop * 1000))

/-- Axial residual displacement `xr` (mm), piecewise on the estimate index. -/
noncomputable def Backend.xr (b : Backend) (i : Fin 3) : ℝ :=
  if i = 0 then min 7.5 (0.015 * (b.dop * 1000))
  else if i = 1 then min 30 (0.06 * (b.dop * 1000))
  else max 250 (0.5 * (b.dop * 1000))

/-- Lateral break displacement `yb` (mm), piecewise on the estimate index. -/
noncomputable def Backend.yb (b : Backend) (i : Fin 3) : ℝ :=
  if i = 0 then (0.004 + 0.02 * (b.z / b.dop)) * (b.dop * 1000)
  else if i = 1 then (0.02 + 0.25 * (b.z / b.dop)) * (b.dop * 1000)
  else (0.1 + 0.7 * (b.z / b.dop)) * (b.dop * 1000)

/-- Lateral residual displacement `yr` (mm), piecewise on the estimate index. -/
noncomputable def Backend.yr (b : Backend) (i : Fin 3) : ℝ :=
  if i = 0 then 0.6 * (b.dop * 1000)
  else if i = 1 then 1.5 * (b.dop * 1000)
  else 2.8 * (b.dop * 1000)

/-- Surface label `"CONCRETE SURFACE"`. -/
def concreteLabel : String := "CONCRETE SURFACE"

/-- Surface label `"PET SURFACE"`. -/
def petLabel : String := "PET SURFACE"

/-- Estimate label `"P5"`. -/
def estP5 : String := "P5"

/-- Estimate label `"P50"`. -/
def estP50 : String := "P50"

/-- Estimate label `"P95"`. -/
def estP95 : String := "P95"

/-- One row appended to `all_results`: every numeric field passes through
`round(x, 2)` inside the engine. -/
structure ProfileRow where
  surface : String
  estimate : String
  axialBrk : ℝ
  xbrk : ℝ
  axialRes : ℝ
  xres : ℝ
  latBrk : ℝ
  ybrk : ℝ
  latRes : ℝ
  yres : ℝ

/-- Construction of one row of `generate_tables` (the body of the inner loop):
the eight numeric fields are the rounded force/displacement values. -/
noncomputable def Backend.mkRow (b : Backend) (surf : String) (c : SurfaceCoeffs)
    (est : String) (i : Fin 3) (v zeta fl : ℝ) : ProfileRow :=
  { surface := surf
    estimate := est
    axialBrk := round2 (b.abrk c zeta v i)
    xbrk := round2 (b.xb i)
    axialRes := round2 (b.ares c zeta v i)
    xres := round2 (b.xr i)
    latBrk := round2 (b.lbrk c v fl i)
    ybrk := round2 (b.yb i)
    latRes := round2 (b.lres v i)
    yres := round2 (b.yr i) }

/-- `PSI_Undrained_Backend.generate_tables(v, zeta, fl_remain)`: the double
loop over the two surfaces and the three estimates, unrolled in its fixed
iteration order. -/
noncomputable def Backend.generate_tables (b : Backend) (v zeta fl : ℝ) :
    List ProfileRow :=
  [b.mkRow concreteLabel b.coeffs_conc estP5 0 v zeta fl,
   b.mkRow concreteLabel b.coeffs_conc estP50 1 v zeta fl,
   b.mkRow concreteLabel b.coeffs_conc estP95 2 v zeta fl,
   b.mkRow petLabel b.coeffs_pet estP5 0 v zeta fl,
   b.mkRow petLabel b.coeffs_pet estP50 1 v zeta fl,
   b.mkRow petLabel b.coeffs_pet estP95 2 v zeta fl]

/-- The dashboard's stability banner (`psi_app.py`): `st.error` when
`metrics['V'] > metrics['Qv']`, else `st.success`. -/
inductive Banner
  | failureWarning
  | stabilityOk
  deriving DecidableEq

/-- `if metrics['V'] > metrics['Qv']: st.error(...) else: st.success(...)`. -/
noncomputable def stabilityBanner (v qv : ℝ) : Banner :=
  if v > qv then Banner.failureWarning else Banner.stabilityOk

/-- The spec's error taxonomy (section 7).  No corresponding code exists in
the repository. -/
inductive PSIError
  | InvalidGeometry
  | InvalidSoilParameter
  | InvalidCoefficientSet
  deriving DecidableEq

/-- Modelled from the spec: section 7's call-boundary validation
("validated before computation begins"): `InvalidGeometry` for `Dop <= 0`,
`tp <= 0`, `tp >= Dop/2` or `Z < 0`; `InvalidSoilParameter` for `Su <= 0`
or `St <= 0`.  (The `InvalidCoefficientSet` case — a surface set missing
one of its 3 ordered pairs — is unrepresentable here because well-formed
coefficient sets are total functions on `Fin 3`.)  The repository contains
no such validation code; this definition exists only to compare the spec's
words against the engine's actual behaviour. -/
noncomputable def validateInputs (b : Backend) : Option PSIError :=
  if b.dop ≤ 0 ∨ b.tp ≤ 0 ∨ b.dop / 2 ≤ b.tp ∨ b.z < 0 then
    some PSIError.InvalidGeometry
  else if b.su ≤ 0 ∨ b.st ≤ 0 then some PSIError.InvalidSoilParameter
  else none

/-- Python-level arithmetic exceptions that `calculate_intermediates` can
raise mid-computation.  There is no validation in the source, so these
generic exceptions are its only error behaviours. -/
inductive PyError
  | valueError
  | zeroDivisionError
  | typeError
  deriving DecidableEq

/-- Continuation of the exception-aware model after the `abm` branch: the
remaining hazards of the source, in Python's evaluation order —
`(z/dop)**0.25` and `(10*z/dop)**0.5` divide by `dop` and yield complex
values for a negative base (so the surrounding `min` raises `TypeError`),
and `term_buoyancy` divides by `dop * su`.  When no hazard fires, the
result is exactly the total model's record. -/
noncomputable def checked_tail (b : Backend) : Except PyError Intermediates :=
  if b.dop = 0 then Except.error PyError.zeroDivisionError
  else if b.z / b.dop < 0 then Except.error PyError.typeError
  else if b.dop * b.su = 0 then Except.error PyError.zeroDivisionError
  else Except.ok b.calculate_intermediates

/-- Exception-aware model of `calculate_intermediates`: the same arithmetic
as the total model, with the source's error paths explicit in Python's
evaluation order.  The weight block (`wp` … `v`) is total; then, in the
`z < dop/2` branch, `math.sqrt` raises `ValueError` on a negative argument,
the division `b_width / dop` raises `ZeroDivisionError` for `dop = 0`, and
the unclamped `math.asin` raises `ValueError` for an argument outside
`[-1, 1]`; the remaining hazards follow in `checked_tail`. -/
noncomputable def calculate_intermediates_checked (b : Backend) :
    Except PyError Intermediates :=
  if b.z < b.dop / 2 then
    if b.dop * b.z - b.z ^ 2 < 0 then Except.error PyError.valueError
    else if b.dop = 0 then Except.error PyError.zeroDivisionError
    else if 1 < |b.b_width / b.dop| then Except.error PyError.valueError
    else checked_tail b
  else checked_tail b

/-! ### Shared helper lemmas -/

/-- In exact arithmetic the chord ratio `b_width / dop` lies in `[0, 1]`
whenever `dop > 0` (for every real `z`: a negative radicand makes the
square root zero). -/
theorem asin_arg_bounds (b : Backend) (hD : 0 < b.dop) :
    0 ≤ b.b_width / b.dop ∧ b.b_width / b.dop ≤ 1 := by
  have h1 : 0 ≤ b.b_width := by
    rw [Backend.b_width]
    positivity
  have h2 : b.b_width ≤ b.dop := by
    rw [Backend.b_width]
    have hle : b.dop * b.z - b.z ^ 2 ≤ (b.dop / 2) ^ 2 := by
      nlinarith [sq_nonneg (b.dop / 2 - b.z)]
    have hs := Real.sqrt_le_sqrt hle
    rw [Real.sqrt_sq (by linarith)] at hs
    linarith
  exact ⟨div_nonneg h1 hD.le, (div_le_one hD).mpr h2⟩

/-- When the divisor and embedment are in-domain and `su ≠ 0`, none of the
tail hazards fires and the checked model completes with the full record. -/
theorem checked_tail_ok (b : Backend) (hD : 0 < b.dop) (hz : 0 ≤ b.z)
    (hsu : b.su ≠ 0) : checked_tail b = Except.ok b.calculate_intermediates := by
  rw [checked_tail, if_neg hD.ne', if_neg (not_lt.mpr (div_nonneg hz hD.le)),
    if_neg (mul_ne_zero hD.ne' hsu)]

/-- `sin x ≤ x` on the nonnegative reals. -/
theorem sin_le_of_nonneg {x : ℝ} (hx : 0 ≤ x) : Real.sin x ≤ x := by
  rcases eq_or_lt_of_le hx with h | h
  · simp [← h]
  · exact (Real.sin_lt h).le

/-- At zero embedment the chord width vanishes. -/
theorem b_width_eq_zero_of_z_eq_zero (b : Backend) (hz : b.z = 0) : b.b_width = 0 := by
  rw [Backend.b_width, hz]
  norm_num

/-- At zero embedment the contact area is zero. -/
theorem abm_eq_zero_of_z_eq_zero (b : Backend) (hD : 0 < b.dop) (hz : b.z = 0) :
    b.abm = 0 := by
  have hbw := b_width_eq_zero_of_z_eq_zero b hz
  have hbr : b.z < b.dop / 2 := by rw [hz]; linarith
  rw [Backend.abm, if_pos hbr, Backend.asin_val, hbw]
  norm_num

/-- At zero embedment the vertical capacity `qv` collapses to zero: both
empirical bearing curves vanish at `z = 0` and so does the contact area. -/
theorem qv_eq_zero_of_z_eq_zero (b : Backend) (hD : 0 < b.dop) (hz : b.z = 0) :
    b.qv = 0 := by
  have habm := abm_eq_zero_of_z_eq_zero b hD hz
  have htb : b.term_bearing = 0 := by
    rw [Backend.term_bearing, hz]
    rw [show (0:ℝ) / b.dop = 0 by ring, show 10 * (0:ℝ) / b.dop = 0 by ring]
    rw [Real.zero_rpow (by norm_num), Real.zero_rpow (by norm_num)]
    norm_num
  have hbu : b.term_buoyancy = 0 := by
    rw [Backend.term_buoyancy, habm]
    ring
  rw [Backend.qv, htb, hbu]
  ring

/-- At zero embedment the clamped `acos` argument is exactly `1`. -/
theorem cos_val_eq_one_of_z_eq_zero (b : Backend) (hz : b.z = 0) : b.cos_val = 1 := by
  rw [Backend.cos_val, hz]
  norm_num

/-- At zero embedment `beta = 0` and the guard defines `zeta = 1`. -/
theorem zeta_eq_one_of_z_eq_zero (b : Backend) (hz : b.z = 0) : b.zeta = 1 := by
  have hb : b.beta = 0 := by
    rw [Backend.beta, cos_val_eq_one_of_z_eq_zero b hz, Real.arccos_one]
  rw [Backend.zeta, if_pos hb]

/-- For `dop ≤ z` the clamp saturates at `-1`, `beta = pi`, and `zeta = 0`. -/
theorem zeta_eq_zero_of_dop_le_z (b : Backend) (hD : 0 < b.dop) (h : b.dop ≤ b.z) :
    b.zeta = 0 := by
  have hd2 : 0 < b.dop / 2 := by linarith
  have h2 : 2 ≤ b.z / (b.dop / 2) := by
    rw [le_div_iff hd2]; linarith
  have hc : b.cos_val = -1 := by
    rw [Backend.cos_val, min_eq_right (by linarith : 1 - b.z / (b.dop / 2) ≤ 1),
      max_eq_left (by linarith : 1 - b.z / (b.dop / 2) ≤ -1)]
  have hb : b.beta = Real.pi := by rw [Backend.beta, hc, Real.arccos_neg_one]
  rw [Backend.zeta, if_neg (by rw [hb]; exact Real.pi_ne_zero), hb, Real.sin_pi]
  simp

/-- For `0 < z < dop` the wedging factor is strictly positive. -/
theorem zeta_pos_of_z_lt_dop (b : Backend) (hD : 0 < b.dop) (h0 : 0 < b.z)
    (hzd : b.z < b.dop) : 0 < b.zeta := by
  have hd2 : 0 < b.dop / 2 := by linarith
  have hr0 : 0 < b.z / (b.dop / 2) := div_pos h0 hd2
  have hr2 : b.z / (b.dop / 2) < 2 := by rw [div_lt_iff hd2]; linarith
  have hc1 : 1 - b.z / (b.dop / 2) < 1 := by linarith
  have hcm : -1 < 1 - b.z / (b.dop / 2) := by linarith
  have hcv : b.cos_val = 1 - b.z / (b.dop / 2) := by
    rw [Backend.cos_val, min_eq_right hc1.le, max_eq_right hcm.le]
  have hb0 : 0 < b.beta := by
    rw [Backend.beta, hcv]; exact Real.arccos_pos.mpr hc1
  have hcosb : Real.cos b.beta = 1 - b.z / (b.dop / 2) := by
    rw [Backend.beta, hcv]; exact Real.cos_arccos (by linarith) hc1.le
  have hble : b.beta ≤ Real.pi := by rw [Backend.beta]; exact Real.arccos_le_pi _
  have hblt : b.beta < Real.pi := by
    rcases eq_or_lt_of_le hble with h | h
    · exfalso
      rw [h, Real.cos_pi] at hcosb
      linarith
    · exact h
  have hsb : 0 < Real.sin b.beta := Real.sin_pos_of_pos_of_lt_pi hb0 hblt
  rw [Backend.zeta, if_neg (ne_of_gt hb0)]
  apply div_pos (by linarith)
  rcases le_or_lt 0 (Real.cos b.beta) with hcp | hcn
  · have : 0 ≤ Real.sin b.beta * Real.cos b.beta := mul_nonneg hsb.le hcp
    linarith
  · have hhalf : Real.pi / 2 < b.beta := by
      by_contra hcon
      push_neg at hcon
      rw [Backend.beta, hcv] at hcon
      have := Real.arccos_le_pi_div_two.mp hcon
      rw [hcosb] at hcn
      linarith
    have hs1 : Real.sin b.beta ≤ 1 := Real.sin_le_one _
    have hcge : -1 ≤ Real.cos b.beta := Real.neg_one_le_cos _
    have hprod : Real.cos b.beta ≤ Real.sin b.beta * Real.cos b.beta := by
      nlinarith
    have hpi : (2:ℝ) ≤ Real.pi := Real.two_le_pi
    linarith

/-- Nonnegativity of the contact area for `0 ≤ z` (both branches). -/
theorem abm_nonneg (b : Backend) (hD : 0 < b.dop) (hz : 0 ≤ b.z) : 0 ≤ b.abm := by
  by_cases hbr : b.z < b.dop / 2
  · rw [Backend.abm, if_pos hbr]
    have hbw0 : 0 ≤ b.b_width := by rw [Backend.b_width]; positivity
    have hbwle : b.b_width ≤ b.dop := by
      rw [Backend.b_width]
      have hle : b.dop * b.z - b.z ^ 2 ≤ (b.dop / 2) ^ 2 := by
        nlinarith [sq_nonneg (b.dop / 2 - b.z)]
      have := Real.sqrt_le_sqrt hle
      rw [Real.sqrt_sq (by linarith)] at this
      linarith
    have hx0 : 0 ≤ b.b_width / b.dop := div_nonneg hbw0 hD.le
    have hx1 : b.b_width / b.dop ≤ 1 := (div_le_one hD).mpr hbwle
    have hsin : Real.sin b.asin_val = b.b_width / b.dop :=
      Real.sin_arcsin (by linarith) hx1
    have hth0 : 0 ≤ b.asin_val := Real.arcsin_nonneg.mpr hx0
    have hDne : b.dop ≠ 0 := ne_of_gt hD
    have key : b.b_width / b.dop * Real.cos b.asin_val ≤ b.asin_val := by
      rcases le_or_lt (Real.cos b.asin_val) 0 with hc | hc
      · have := mul_nonpos_of_nonneg_of_nonpos hx0 hc
        linarith
      · have h1 : b.b_width / b.dop * Real.cos b.asin_val ≤ b.b_width / b.dop := by
          nlinarith [Real.cos_le_one b.asin_val]
        have h2 : b.b_width / b.dop ≤ b.asin_val := by
          rw [← hsin]; exact sin_le_of_nonneg hth0
        linarith
    calc (0:ℝ) ≤ b.dop ^ 2 / 4 * (b.asin_val - b.b_width / b.dop * Real.cos b.asin_val) := by
          have h4 : (0:ℝ) ≤ b.dop ^ 2 / 4 := by positivity
          nlinarith
      _ = b.asin_val * (b.dop ^ 2 / 4) - b.b_width * (b.dop / 4) * Real.cos b.asin_val := by
          field_simp
          ring
  · rw [Backend.abm, if_neg hbr]
    push_neg at hbr
    have h1 : 0 ≤ Real.pi * b.dop ^ 2 / 8 := by
      have := Real.pi_pos
      positivity
    have h2 : 0 ≤ b.dop * (b.z - b.dop / 2) := mul_nonneg hD.le (by linarith)
    linarith

/-- The governing effective force is strictly positive for any physically
valid geometry: `wpins > 0` and `v` is at least the lay-scaled `wpins` term. -/
theorem v_pos (b : Backend) (hD : 0 < b.dop) (htp : 0 < b.tp)
    (htp2 : b.tp < b.dop / 2) : 0 < b.v := by
  have hdip0 : 0 ≤ b.dip := by rw [Backend.dip]; linarith
  have hdiplt : b.dip < b.dop := by rw [Backend.dip]; linarith
  have h2 : 0 < b.dop ^ 2 - b.dip ^ 2 := by nlinarith
  have hw : 0 < b.wpins := by
    rw [Backend.wpins]
    have := Real.pi_pos
    have : 0 < Real.pi * (b.dop ^ 2 - b.dip ^ 2) * (7850 - 1025) := by
      apply mul_pos (mul_pos Real.pi_pos h2)
      norm_num
    linarith
  have hterm : 0 < b.wpins * klay * g / 1000 := by
    rw [klay, g]
    positivity
  exact lt_of_lt_of_le hterm (le_max_left _ _)

/-- Strict positivity of `qv` for strictly positive embedment, positive
strength, and nonnegative effective submerged weight. -/
theorem qv_pos (b : Backend) (hD : 0 < b.dop) (hsu : 0 < b.su) (hz : 0 < b.z)
    (hw : 0 ≤ b.sub_wt) : 0 < b.qv := by
  have htb : 0 < b.term_bearing := by
    rw [Backend.term_bearing]
    apply lt_min
    · have : 0 < (b.z / b.dop) ^ (0.25:ℝ) :=
        Real.rpow_pos_of_pos (div_pos hz hD) _
      linarith
    · have : 0 < (10 * b.z / b.dop) ^ (0.5:ℝ) := by
        apply Real.rpow_pos_of_pos
        apply div_pos (by linarith) hD
      linarith
  have hbu : 0 ≤ b.term_buoyancy := by
    rw [Backend.term_buoyancy]
    apply div_nonneg
    · have habm := abm_nonneg b hD hz.le
      have h15 : (0:ℝ) ≤ 1.5 := by norm_num
      exact mul_nonneg (mul_nonneg h15 hw) habm
    · exact mul_nonneg hD.le hsu.le
  rw [Backend.qv]
  exact mul_pos (mul_pos (by linarith) hD) hsu

/-! ### Concrete instances used by witnesses and counterexamples -/

/-- Coefficient set with `SSR = 1`, `Prem = 0` at every index. -/
noncomputable def unitCoeffs : SurfaceCoeffs := ⟨fun _ => 1, fun _ => 0⟩

/-- Coefficient set with all entries zero. -/
noncomputable def zeroCoeffs : SurfaceCoeffs := ⟨fun _ => 0, fun _ => 0⟩

/-! ### C5 — stability banner -/

/-- C5 counterexample: at `V = Qv = 1` the claim demands an instability
warning (`V ≥ Qv`), but the dashboard's strict comparison `V > Qv` reports
the success banner instead. -/
theorem c5_counterexample :
    stabilityBanner 1 1 = Banner.stabilityOk ∧ (1:ℝ) ≥ 1 := by
  constructor
  · rw [stabilityBanner, if_neg (lt_irrefl (1:ℝ))]
  · exact le_refl 1

/-- C5 (amended): the dashboard reports the failure warning exactly when
`V > Qv` (strictly), and the stability banner exactly when `V ≤ Qv`. -/
theorem c5_banner_iff (v qv : ℝ) :
    (stabilityBanner v qv = Banner.failureWarning ↔ qv < v) ∧
    (stabilityBanner v qv = Banner.stabilityOk ↔ v ≤ qv) := by
  rw [stabilityBanner]
  by_cases h : qv < v
  · rw [if_pos h]
    simp [h, not_le.mpr h]
  · rw [if_neg h]
    simp [h, not_lt.mp h]

/-! ### C7 — axial residual vs break force -/

/-- C7: for every surface/estimate combination the computed axial residual
force is exactly the axial break force divided by `st`, and it is bounded by
the break force whenever `st ≥ 1` and the break force is nonnegative. -/
theorem c7_ares_eq_abrk_div_st (b : Backend) (c : SurfaceCoeffs) (zeta v : ℝ)
    (i : Fin 3) :
    b.ares c zeta v i = b.abrk c zeta v i / b.st ∧
    (1 ≤ b.st → 0 ≤ b.abrk c zeta v i → b.ares c zeta v i ≤ b.abrk c zeta v i) := by
  have heq : b.ares c zeta v i = b.abrk c zeta v i / b.st := by
    rw [Backend.ares, one_div, inv_mul_eq_div]
  refine ⟨heq, fun hst ha => ?_⟩
  rw [heq]
  exact div_le_self ha hst

/-- Backend used by the C7 witness: `st = 2`, all other inputs benign. -/
noncomputable def c7B : Backend :=
  ⟨1, 0.25, 0, 1, 1, 2, 1, 1, 10.05, 0, unitCoeffs, unitCoeffs⟩

/-- C7 witness at a concrete input (`st = 2`, `abrk = 1`). -/
theorem c7_witness :
    c7B.ares c7B.coeffs_conc 1 1 0 = c7B.abrk c7B.coeffs_conc 1 1 0 / c7B.st ∧
    c7B.ares c7B.coeffs_conc 1 1 0 ≤ c7B.abrk c7B.coeffs_conc 1 1 0 := by
  obtain ⟨h1, h2⟩ := c7_ares_eq_abrk_div_st c7B c7B.coeffs_conc 1 1 0
  refine ⟨h1, h2 (by norm_num [c7B]) ?_⟩
  rw [Backend.abrk]
  norm_num [c7B, unitCoeffs, Real.rpow_zero]

/-! ### C9 — lateral residual spread -/

/-- C9: the three lateral residual forces are `base/1.5`, `base`, `base*1.5`
of the single coefficient-independent base `(0.32 + 0.8*(z/dop)^0.8)*v`; the
rounded table field for `lres` is identical for any two coefficient sets,
surface labels, estimate labels, `zeta` and `fl` values; and the three
estimates are ordered whenever the base is nonnegative. -/
theorem c9_lres_spread (b : Backend) (v : ℝ) (c c' : SurfaceCoeffs)
    (s s' e e' : String) (zeta zeta' fl fl' : ℝ) (i : Fin 3) :
    b.lres v 0 = b.base_lres v / 1.5 ∧
    b.lres v 1 = b.base_lres v ∧
    b.lres v 2 = b.base_lres v * 1.5 ∧
    (b.mkRow s c e i v zeta fl).latRes = (b.mkRow s' c' e' i v zeta' fl').latRes ∧
    (0 ≤ b.base_lres v → b.lres v 0 ≤ b.lres v 1 ∧ b.lres v 1 ≤ b.lres v 2) := by
  have h0 : b.lres v 0 = b.base_lres v / 1.5 := by
    rw [Backend.lres, if_pos rfl]
  have h1 : b.lres v 1 = b.base_lres v := by
    rw [Backend.lres, if_neg (by decide), if_neg (by decide)]
  have h2 : b.lres v 2 = b.base_lres v * 1.5 := by
    rw [Backend.lres, if_neg (by decide), if_pos rfl]
  refine ⟨h0, h1, h2, rfl, fun hbase => ⟨?_, ?_⟩⟩
  · rw [h0, h1]
    exact div_le_self hbase (by norm_num)
  · rw [h1, h2]
    exact le_mul_of_one_le_right hbase (by norm_num)

/-- Backend used by the C9 witness: `z = 0`, `dop = 1`. -/
noncomputable def c9B : Backend :=
  ⟨1, 0.25, 0, 1, 1, 1, 1, 1, 10.05, 0, unitCoeffs, unitCoeffs⟩

/-- C9 witness: the lateral residual estimates are ordered at a concrete
input with nonnegative base. -/
theorem c9_witness : c9B.lres 1 0 ≤ c9B.lres 1 1 ∧ c9B.lres 1 1 ≤ c9B.lres 1 2 := by
  have hzd : c9B.z / c9B.dop = 0 := by norm_num [c9B]
  have hb : (0:ℝ) ≤ c9B.base_lres 1 := by
    rw [Backend.base_lres, hzd, Real.zero_rpow (by norm_num)]
    norm_num
  exact (c9_lres_spread c9B 1 unitCoeffs unitCoeffs concreteLabel concreteLabel
    estP5 estP5 0 0 0 0 0).2.2.2.2 hb

/-! ### C10 — displacement fields depend only on `dop`, `z` and the index -/

/-- C10: each of the four displacement fields of a generated row is a
function of `dop`, `z` and the estimate index alone: two backends agreeing
on `dop` and `z` produce identical displacement fields for any coefficient
sets, labels, `v`, `zeta` and `fl`. -/
theorem c10_displacements_depend_only_on_dop_z (b1 b2 : Backend)
    (hd : b1.dop = b2.dop) (hz : b1.z = b2.z) (c1 c2 : SurfaceCoeffs)
    (s1 s2 e1 e2 : String) (v1 v2 zeta1 zeta2 f1 f2 : ℝ) (i : Fin 3) :
    (b1.mkRow s1 c1 e1 i v1 zeta1 f1).xbrk = (b2.mkRow s2 c2 e2 i v2 zeta2 f2).xbrk ∧
    (b1.mkRow s1 c1 e1 i v1 zeta1 f1).xres = (b2.mkRow s2 c2 e2 i v2 zeta2 f2).xres ∧
    (b1.mkRow s1 c1 e1 i v1 zeta1 f1).ybrk = (b2.mkRow s2 c2 e2 i v2 zeta2 f2).ybrk ∧
    (b1.mkRow s1 c1 e1 i v1 zeta1 f1).yres = (b2.mkRow s2 c2 e2 i v2 zeta2 f2).yres := by
  have hxb : b1.xb i = b2.xb i := by rw [Backend.xb, Backend.xb, hd]
  have hxr : b1.xr i = b2.xr i := by rw [Backend.xr, Backend.xr, hd]
  have hyb : b1.yb i = b2.yb i := by rw [Backend.yb, Backend.yb, hd, hz]
  have hyr : b1.yr i = b2.yr i := by rw [Backend.yr, Backend.yr, hd]
  simp only [Backend.mkRow]
  exact ⟨congrArg round2 hxb, congrArg round2 hxr, congrArg round2 hyb,
    congrArg round2 hyr⟩

/-- First backend for the C10 witness. -/
noncomputable def c10A : Backend :=
  ⟨1, 0.25, 0.5, 5, 1, 3, 0.5, 1, 18, 5, unitCoeffs, unitCoeffs⟩

/-- Second backend for the C10 witness: same `dop` and `z`, every other
input different. -/
noncomputable def c10B : Backend :=
  ⟨1, 0.1, 0.5, 99, 2, 4, 0.7, 2, 20, 7, zeroCoeffs, zeroCoeffs⟩

/-- C10 witness: two backends that differ in everything except `dop` and `z`
produce the same axial-break displacement field. -/
theorem c10_witness :
    (c10A.mkRow concreteLabel unitCoeffs estP5 0 1 1 0).xbrk =
      (c10B.mkRow petLabel zeroCoeffs estP95 0 2 3 4).xbrk := by
  exact (c10_displacements_depend_only_on_dop_z c10A c10B
    (by norm_num [c10A, c10B]) (by norm_num [c10A, c10B]) unitCoeffs zeroCoeffs
    concreteLabel petLabel estP5 estP95 1 2 1 3 0 4 0).1

/-! ### C1 — call-boundary validation -/

/-- Backend whose inputs violate the soil-parameter constraint (`su = -1`)
while every other spec constraint holds. -/
noncomputable def c1B : Backend :=
  ⟨1, 0.25, 0, -1, 1, 1, 1, 1, 10.05, 0, zeroCoeffs, zeroCoeffs⟩

/-- C1 counterexample: on an input the spec's own validator flags as
`InvalidSoilParameter` (`su = -1 ≤ 0`), the engine does not fail at the call
boundary — `calculate_intermediates` runs to completion and returns a full
record (here `zeta = 1` and `Qv = 0`), because the source contains no
validation code at all. -/
theorem c1_counterexample :
    validateInputs c1B = some PSIError.InvalidSoilParameter ∧
    c1B.calculate_intermediates.zeta = 1 ∧
    c1B.calculate_intermediates.Qv = 0 := by
  have hg : ¬ (c1B.dop ≤ 0 ∨ c1B.tp ≤ 0 ∨ c1B.dop / 2 ≤ c1B.tp ∨ c1B.z < 0) := by
    push_neg
    norm_num [c1B]
  have hs : c1B.su ≤ 0 ∨ c1B.st ≤ 0 := by
    left
    norm_num [c1B]
  refine ⟨by rw [validateInputs, if_neg hg, if_pos hs], ?_, ?_⟩
  · show c1B.zeta = 1
    exact zeta_eq_one_of_z_eq_zero c1B (by norm_num [c1B])
  · show c1B.qv = 0
    exact qv_eq_zero_of_z_eq_zero c1B (by norm_num [c1B]) (by norm_num [c1B])

/-- C1 (amended): the engine performs no call-boundary validation and
defines no distinguishing error kinds.  With `su < 0` — flagged by the
spec's validator — and in-domain geometry, the exception-aware model runs
to completion and returns the complete record, no error raised; with
`z < 0` the only failure is a generic `ValueError` raised mid-computation
by `math.sqrt`, not one of the spec's error kinds and not before
computation begins. -/
theorem c1_no_validation (b : Backend) (hD : 0 < b.dop) :
    (b.su < 0 → 0 ≤ b.z →
      (validateInputs b).isSome = true ∧
      calculate_intermediates_checked b = Except.ok b.calculate_intermediates) ∧
    (b.z < 0 → calculate_intermediates_checked b = Except.error PyError.valueError) := by
  constructor
  · intro hsu hz
    constructor
    · rw [validateInputs]
      by_cases hg : b.dop ≤ 0 ∨ b.tp ≤ 0 ∨ b.dop / 2 ≤ b.tp ∨ b.z < 0
      · rw [if_pos hg]
        rfl
      · rw [if_neg hg, if_pos (Or.inl hsu.le)]
        rfl
    · rw [calculate_intermediates_checked]
      by_cases hbr : b.z < b.dop / 2
      · rw [if_pos hbr]
        have ht : ¬ (b.dop * b.z - b.z ^ 2 < 0) := by
          push_neg
          nlinarith [mul_nonneg hz (show (0:ℝ) ≤ b.dop - b.z by linarith)]
        obtain ⟨ha0, ha1⟩ := asin_arg_bounds b hD
        rw [if_neg ht, if_neg hD.ne',
          if_neg (not_lt.mpr (abs_le.mpr ⟨by linarith, ha1⟩))]
        exact checked_tail_ok b hD hz hsu.ne
      · rw [if_neg hbr]
        exact checked_tail_ok b hD hz hsu.ne
  · intro hzneg
    have hbr : b.z < b.dop / 2 := by linarith
    have ht : b.dop * b.z - b.z ^ 2 < 0 := by
      have h1 : b.dop * b.z < 0 := mul_neg_of_pos_of_neg hD hzneg
      nlinarith [sq_nonneg b.z]
    rw [calculate_intermediates_checked, if_pos hbr, if_pos ht]

/-- C1 witness at the concrete invalid input `c1B` (`su = -1`, in-domain
geometry): the validator flags it, yet the engine completes. -/
theorem c1_witness :
    (validateInputs c1B).isSome = true ∧
    calculate_intermediates_checked c1B = Except.ok c1B.calculate_intermediates := by
  exact (c1_no_validation c1B (by norm_num [c1B])).1 (by norm_num [c1B])
    (by norm_num [c1B])

/-! ### C2 — rounding inside the engine -/

/-- Coefficients for the C2 counterexample, chosen so `abrk = 0.111`. -/
noncomputable def c2C : SurfaceCoeffs := ⟨fun _ => 0.111, fun _ => 0⟩

/-- Backend for the C2 counterexample. -/
noncomputable def c2B : Backend :=
  ⟨1, 0.25, 0, 1, 1, 1, 1, 1, 10.05, 0, c2C, c2C⟩

/-- C2 counterexample: the engine's first generated row stores axial break
force `0.11` while the full-precision value is `0.111` — rounding to two
decimals happens inside `generate_tables`, not in the presentation layer. -/
theorem c2_counterexample :
    (c2B.generate_tables 1 1 0).head?.map ProfileRow.axialBrk = some 0.11 ∧
    c2B.abrk c2B.coeffs_conc 1 1 0 = 0.111 ∧ (0.11 : ℝ) ≠ 0.111 := by
  have habrk : c2B.abrk c2B.coeffs_conc 1 1 0 = 0.111 := by
    rw [Backend.abrk]
    norm_num [c2B, c2C, Real.rpow_zero]
  have hround : round2 (0.111 : ℝ) = 0.11 := by
    rw [round2]
    have h11 : round ((0.111:ℝ) * 100) = 11 := by
      rw [round_eq, Int.floor_eq_iff]
      norm_num
    rw [h11]
    norm_num
  refine ⟨?_, habrk, by norm_num⟩
  rw [Backend.generate_tables]
  simp only [List.head?_cons, Option.map_some']
  have hfield : (c2B.mkRow concreteLabel c2B.coeffs_conc estP5 0 1 1 0).axialBrk = 0.11 := by
    show round2 (c2B.abrk c2B.coeffs_conc 1 1 0) = 0.11
    rw [habrk, hround]
  rw [hfield]

/-- C2 (amended): rounding is performed inside the engine: every numeric
field of every row produced by `generate_tables` is an integer multiple of
`0.01`; the full-precision values are not exposed. -/
theorem c2_engine_rounds (b : Backend) (v zeta fl : ℝ) (row : ProfileRow)
    (hrow : row ∈ b.generate_tables v zeta fl) :
    (∃ n : ℤ, row.axialBrk = n / 100) ∧ (∃ n : ℤ, row.xbrk = n / 100) ∧
    (∃ n : ℤ, row.axialRes = n / 100) ∧ (∃ n : ℤ, row.xres = n / 100) ∧
    (∃ n : ℤ, row.latBrk = n / 100) ∧ (∃ n : ℤ, row.ybrk = n / 100) ∧
    (∃ n : ℤ, row.latRes = n / 100) ∧ (∃ n : ℤ, row.yres = n / 100) := by
  have hr : ∀ x : ℝ, ∃ n : ℤ, round2 x = n / 100 := fun x => ⟨round (x * 100), rfl⟩
  rw [Backend.generate_tables] at hrow
  simp only [List.mem_cons, List.not_mem_nil, or_false] at hrow
  rcases hrow with rfl | rfl | rfl | rfl | rfl | rfl <;>
    exact ⟨hr _, hr _, hr _, hr _, hr _, hr _, hr _, hr _⟩

/-- C2 witness: the first generated row's axial break force is a multiple
of `0.01`. -/
theorem c2_witness :
    ∃ n : ℤ, (c2B.mkRow concreteLabel c2B.coeffs_conc estP5 0 1 1 0).axialBrk = n / 100 := by
  have hmem : c2B.mkRow concreteLabel c2B.coeffs_conc estP5 0 1 1 0 ∈
      c2B.generate_tables 1 1 0 := by
    rw [Backend.generate_tables]
    exact List.mem_cons_self _ _
  exact (c2_engine_rounds c2B 1 1 0 _ hmem).1

/-! ### C8 — monotonicity in the rate factor -/

/-- Backend for the C8 counterexample: negative adhesion factor `alpha = -1`,
every domain constraint of the spec satisfied. -/
noncomputable def c8B : Backend :=
  ⟨1, 0.25, 0, 1, 1, 1, -1, 1, 10.05, 0, unitCoeffs, unitCoeffs⟩

/-- C8 counterexample: with `alpha = -1` (the spec places no constraint on
`alpha`), raising `rate` from `1` to `2` strictly decreases the axial break
force. -/
theorem c8_counterexample :
    c8B.rate < 2 ∧
    ({ c8B with rate := 2 }).abrk unitCoeffs 1 1 0 < c8B.abrk unitCoeffs 1 1 0 := by
  constructor
  · norm_num [c8B]
  · rw [Backend.abrk, Backend.abrk]
    norm_num [c8B, unitCoeffs, Real.rpow_zero]

/-- C8 (amended): with nonnegative `alpha`, `SSR`, `zeta`, `v`, positive
`ocr`, and a nonnegative passive-resistance bracket `z*(2*su_b14 +
0.5*sub_wt*z)` (the `fl_remain` factor that also scales with `rate`),
increasing the rate factor does not decrease `abrk` or `lbrk`. -/
theorem c8_rate_monotone (b : Backend) (c : SurfaceCoeffs) (i : Fin 3)
    (zeta v r1 r2 : ℝ) (halpha : 0 ≤ b.alpha) (hssr : 0 ≤ c.SSR i)
    (hocr : 0 < b.ocr) (hzeta : 0 ≤ zeta) (hv : 0 ≤ v)
    (hfl : 0 ≤ b.z * (2 * b.su_b14 + 0.5 * b.sub_wt * b.z)) (hr : r1 ≤ r2) :
    ({ b with rate := r1 }).abrk c zeta v i ≤ ({ b with rate := r2 }).abrk c zeta v i ∧
    ({ b with rate := r1 }).lbrk c v ({ b with rate := r1 }).fl_remain i ≤
      ({ b with rate := r2 }).lbrk c v ({ b with rate := r2 }).fl_remain i := by
  have hp : 0 < b.ocr ^ c.Prem i := Real.rpow_pos_of_pos hocr _
  constructor
  · show b.alpha * c.SSR i * b.ocr ^ c.Prem i * zeta * r1 * v ≤
      b.alpha * c.SSR i * b.ocr ^ c.Prem i * zeta * r2 * v
    have hK : 0 ≤ b.alpha * c.SSR i * b.ocr ^ c.Prem i * zeta :=
      mul_nonneg (mul_nonneg (mul_nonneg halpha hssr) hp.le) hzeta
    exact mul_le_mul_of_nonneg_right (mul_le_mul_of_nonneg_left hr hK) hv
  · show b.alpha * c.SSR i * b.ocr ^ c.Prem i * r1 * v +
        b.z * r1 * (2 * b.su_b14 + 0.5 * b.sub_wt * b.z) ≤
      b.alpha * c.SSR i * b.ocr ^ c.Prem i * r2 * v +
        b.z * r2 * (2 * b.su_b14 + 0.5 * b.sub_wt * b.z)
    have hK : 0 ≤ b.alpha * c.SSR i * b.ocr ^ c.Prem i :=
      mul_nonneg (mul_nonneg halpha hssr) hp.le
    have h1 : b.alpha * c.SSR i * b.ocr ^ c.Prem i * r1 * v ≤
        b.alpha * c.SSR i * b.ocr ^ c.Prem i * r2 * v :=
      mul_le_mul_of_nonneg_right (mul_le_mul_of_nonneg_left hr hK) hv
    have h2 : b.z * r1 * (2 * b.su_b14 + 0.5 * b.sub_wt * b.z) ≤
        b.z * r2 * (2 * b.su_b14 + 0.5 * b.sub_wt * b.z) := by
      calc b.z * r1 * (2 * b.su_b14 + 0.5 * b.sub_wt * b.z)
          = b.z * (2 * b.su_b14 + 0.5 * b.sub_wt * b.z) * r1 := by ring
        _ ≤ b.z * (2 * b.su_b14 + 0.5 * b.sub_wt * b.z) * r2 :=
            mul_le_mul_of_nonneg_left hr hfl
        _ = b.z * r2 * (2 * b.su_b14 + 0.5 * b.sub_wt * b.z) := by ring
    exact add_le_add h1 h2

/-- Backend for the C8 witness: nonnegative interaction inputs. -/
noncomputable def c8W : Backend :=
  ⟨1, 0.25, 0, 1, 1, 1, 1, 1, 10.05, 0, unitCoeffs, unitCoeffs⟩

/-- C8 witness at a concrete input with `rate` raised from `1` to `2`. -/
theorem c8_witness :
    ({ c8W with rate := 1 }).abrk unitCoeffs 1 1 0 ≤
      ({ c8W with rate := 2 }).abrk unitCoeffs 1 1 0 := by
  exact (c8_rate_monotone c8W unitCoeffs 0 1 1 1 2 (by norm_num [c8W])
    (by norm_num [unitCoeffs]) (by norm_num [c8W]) (by norm_num) (by norm_num)
    (by norm_num [c8W, Backend.sub_wt]) (by norm_num)).1

/-! ### C3 — sign invariants of the intermediates -/

/-- Backend for the C3 counterexample: a fully in-domain input with `z = 0`. -/
noncomputable def c3B : Backend :=
  ⟨1, 0.25, 0, 1, 1, 1, 1, 1, 20, 5, unitCoeffs, unitCoeffs⟩

/-- C3 counterexample: at the in-domain input with `z = 0` (allowed by the
claim's `Z ≥ 0`), the engine computes `Qv = 0`, refuting `Qv > 0`. -/
theorem c3_counterexample :
    (0 < c3B.dop ∧ 0 < c3B.tp ∧ c3B.tp < c3B.dop / 2 ∧ 0 ≤ c3B.z ∧
      0 < c3B.su ∧ 0 < c3B.ocr ∧ 0 < c3B.st) ∧
    ¬ (0 < c3B.calculate_intermediates.Qv) := by
  constructor
  · norm_num [c3B]
  · have h : c3B.qv = 0 :=
      qv_eq_zero_of_z_eq_zero c3B (by norm_num [c3B]) (by norm_num [c3B])
    show ¬ (0 < c3B.qv)
    rw [h]
    exact lt_irrefl 0

/-- C3 (amended): with the additional hypotheses `0 < z < dop` (strictly
positive embedment below one diameter) and `sub_wt_raw ≥ 10.05` (nonnegative
effective submerged weight), the intermediates satisfy `Abm ≥ 0`, `Qv > 0`,
`V > 0` and `zeta > 0`. -/
theorem c3_invariants (b : Backend) (hD : 0 < b.dop) (htp : 0 < b.tp)
    (htp2 : b.tp < b.dop / 2) (hsu : 0 < b.su) (hw : 10.05 ≤ b.sub_wt_raw)
    (hz0 : 0 < b.z) (hzd : b.z < b.dop) :
    0 ≤ b.calculate_intermediates.Abm ∧ 0 < b.calculate_intermediates.Qv ∧
    0 < b.calculate_intermediates.V ∧ 0 < b.calculate_intermediates.zeta := by
  have hsw : 0 ≤ b.sub_wt := by
    rw [Backend.sub_wt]
    linarith
  exact ⟨abm_nonneg b hD hz0.le, qv_pos b hD hsu hz0 hsw, v_pos b hD htp htp2,
    zeta_pos_of_z_lt_dop b hD hz0 hzd⟩

/-- Backend for the C3 witness: `z = 0.5`, `dop = 1`. -/
noncomputable def c3W : Backend :=
  ⟨1, 0.25, 0.5, 1, 1, 1, 1, 1, 20, 5, unitCoeffs, unitCoeffs⟩

/-- C3 witness at a concrete strictly-embedded input. -/
theorem c3_witness : 0 < c3W.calculate_intermediates.Qv := by
  exact (c3_invariants c3W (by norm_num [c3W]) (by norm_num [c3W])
    (by norm_num [c3W]) (by norm_num [c3W]) (by norm_num [c3W])
    (by norm_num [c3W]) (by norm_num [c3W])).2.1

/-! ### C4 — asin domain safety -/

/-- C4: in exact real arithmetic the `asin` argument `b_width / dop` always
lies in `[0, 1]`, so the clamp the spec prescribes would be a no-op there
(its absence in the source is observable only in floating point, where a
rounding overshoot above `1` makes `math.asin` raise a domain error). -/
theorem c4_asin_arg_in_domain (b : Backend) (hD : 0 < b.dop) :
    0 ≤ b.b_width / b.dop ∧ b.b_width / b.dop ≤ 1 ∧
    max (-1) (min 1 (b.b_width / b.dop)) = b.b_width / b.dop := by
  obtain ⟨hx0, hx1⟩ := asin_arg_bounds b hD
  exact ⟨hx0, hx1, by rw [min_eq_right hx1, max_eq_right (by linarith)]⟩

/-- Backend for the C4 witness. -/
noncomputable def c4B : Backend :=
  ⟨1, 0.25, 0.25, 1, 1, 1, 1, 1, 10.05, 0, unitCoeffs, unitCoeffs⟩

/-- C4 witness at a concrete embedded input. -/
theorem c4_witness :
    0 ≤ c4B.b_width / c4B.dop ∧ c4B.b_width / c4B.dop ≤ 1 := by
  have h := c4_asin_arg_in_domain c4B (by norm_num [c4B])
  exact ⟨h.1, h.2.1⟩

/-! ### C6 — wedging factor boundary behaviour -/

/-- Backend for the C6 counterexample: `z = dop = 1`. -/
noncomputable def c6B : Backend :=
  ⟨1, 0.25, 1, 1, 1, 1, 1, 1, 10.05, 0, unitCoeffs, unitCoeffs⟩

/-- C6 counterexample: at `z = dop = 1 > 0` the clamp saturates, `beta = pi`
and the engine computes `zeta = 0` — not strictly positive as claimed. -/
theorem c6_counterexample :
    0 < c6B.dop ∧ 0 < c6B.z ∧ c6B.calculate_intermediates.zeta = 0 ∧
    ¬ (0 < c6B.calculate_intermediates.zeta) := by
  have h : c6B.zeta = 0 :=
    zeta_eq_zero_of_dop_le_z c6B (by norm_num [c6B]) (by norm_num [c6B])
  refine ⟨by norm_num [c6B], by norm_num [c6B], h, ?_⟩
  show ¬ (0 < c6B.zeta)
  rw [h]
  exact lt_irrefl 0

/-- C6 (amended): `zeta = 1` at `z = 0`; `zeta` is strictly positive for
`0 < z < dop`; and for `z ≥ dop` the clamped wedging angle reaches `pi` and
`zeta = 0`. -/
theorem c6_zeta_cases (b : Backend) (hD : 0 < b.dop) :
    (b.z = 0 → b.calculate_intermediates.zeta = 1) ∧
    (0 < b.z → b.z < b.dop → 0 < b.calculate_intermediates.zeta) ∧
    (b.dop ≤ b.z → b.calculate_intermediates.zeta = 0) := by
  exact ⟨fun hz => zeta_eq_one_of_z_eq_zero b hz,
    fun h0 hlt => zeta_pos_of_z_lt_dop b hD h0 hlt,
    fun hge => zeta_eq_zero_of_dop_le_z b hD hge⟩

/-- Backend for the C6 witness: `z = 0`. -/
noncomputable def c6W : Backend :=
  ⟨1, 0.25, 0, 1, 1, 1, 1, 1, 10.05, 0, unitCoeffs, unitCoeffs⟩

/-- C6 witness: at zero embedment the engine defines `zeta = 1` exactly. -/
theorem c6_witness : c6W.calculate_intermediates.zeta = 1 := by
  exact (c6_zeta_cases c6W (by norm_num [c6W])).1 (by norm_num [c6W])

end PSI
